import Mathlib

/-!
# Verification of `core/os/device/remotessh/commands.go`

A shallow embedding of the remote-ssh command layer: composition of the
remote command line, the process wait/relay synchronization structure, the
tunnel accept loop, and the file/directory helpers, together with theorems
settling the specification claims about them.
-/

/-! ## String helpers (Go standard library functions used by the source) -/

/-- Modelled from the Go standard library: `strings.TrimSpace` as used at
`commands.go:112/119` — removes leading and trailing whitespace. -/
def trimSpace (s : String) : String :=
  ⟨((s.data.dropWhile Char.isWhitespace).reverse.dropWhile Char.isWhitespace).reverse⟩

/-- Modelled from the Go standard library: `strings.Join(args, sep)` as used at
`commands.go:123` — joins the elements with the separator between them. -/
def joinWith (sep : String) : List String → String
  | [] => ""
  | [x] => x
  | x :: y :: r => x ++ sep ++ joinWith sep (y :: r)

/-- Concatenation of a list of strings (used to restate the environment
prefix as a list of tokens). -/
def strJoin : List String → String
  | [] => ""
  | x :: r => x ++ strJoin r

/-- Escape embedded double quotes with a backslash. -/
def escQuotes (s : String) : String :=
  ⟨s.data.foldr (fun c acc => if c = '"' then '\\' :: '"' :: acc else c :: acc) []⟩

/-- Modelled from the spec: `text.Quote` (repository code not under `src/`) —
values are "shell-quoted to survive embedded whitespace/special characters":
a value containing whitespace or a double quote is wrapped in double quotes
with embedded quotes escaped, so that it remains a single shell token; other
values are passed through unchanged. -/
def quoteVal (s : String) : String :=
  if s.data.any (fun c => c.isWhitespace || c = '"') then
    "\"" ++ escQuotes s ++ "\""
  else s

/-! ## Environment model -/

/-- Modelled from the spec: `shell.Env` (repository code not under `src/`) —
"an environment mapping (key unique, value string)". `keys` lists the keys in
order; `get` returns the value bound to a key, or the empty string. -/
structure Env where
  entries : List (String × String)

/-- The keys of the environment, in order (`Env.Keys` in the source). -/
def Env.keys (e : Env) : List String := e.entries.map Prod.fst

/-- The value bound to a key (`Env.Get` in the source), `""` when absent. -/
def Env.get (e : Env) (k : String) : String :=
  match e.entries.find? (fun p => p.1 == k) with
  | some p => p.2
  | none => ""

/-! ## The composed remote command line (`sshShellTarget.Start`, lines 104-123) -/

/-- One `KEY=VALUE ` token of the environment prefix, as appended at
`commands.go:112` and `commands.go:119`: trimmed key, `=`, quoted value,
trailing space. -/
def tokenOf (e : Env) (k : String) : String :=
  trimSpace k ++ "=" ++ quoteVal (e.get k) ++ " "

/-- The loop at `commands.go:109-114` (and `116-121`): fold over the
environment's keys, appending one `KEY=VALUE ` token per nonempty key to the
accumulated prefix. -/
def envFold (e : Env) (p0 : String) : String :=
  e.keys.foldl (fun acc k => if k ≠ "" then acc ++ tokenOf e k else acc) p0

/-- The literal command string composed by `sshShellTarget.Start`
(`commands.go:104-123`): optional `cd <dir>; ` when a working directory is
set, then the command-level environment tokens, then the device-default
environment tokens, then the program name and space-joined arguments. -/
def startCommandString (cmdEnv devEnv : Env) (dir nm : String)
    (args : List String) : String :=
  let p0 := if dir ≠ "" then "cd " ++ dir ++ "; " else ""
  let p1 := envFold cmdEnv p0
  let p2 := envFold devEnv p1
  p2 ++ nm ++ " " ++ joinWith " " args

/-- The `KEY=VALUE ` tokens contributed by one environment, as a list. -/
def envTokens (e : Env) : List String :=
  e.keys.filterMap (fun k => if k = "" then none else some (tokenOf e k))

/-- The `(trimmed key, quoted value)` assignments contributed by one
environment, in the order they appear in the composed command line. -/
def envAssigns (e : Env) : List (String × String) :=
  e.keys.filterMap
    (fun k => if k = "" then none else some (trimSpace k, quoteVal (e.get k)))

/-- The full assignment list of the composed command line: command-level
entries first (`commands.go:109-114`), then device defaults
(`commands.go:116-121`). -/
def assignments (cmdEnv devEnv : Env) : List (String × String) :=
  envAssigns cmdEnv ++ envAssigns devEnv

/-- Modelled from the spec: the composed string is handed to the remote POSIX
shell for interpretation ("delegates interpretation to the remote POSIX
shell"), where for repeated `KEY=` assignments preceding a command the last
assignment is the one in effect. `lastAssign` returns the effective value of
a key under that semantics. -/
def lastAssign (l : List (String × String)) (k : String) : Option String :=
  l.foldl (fun acc p => if p.1 = k then some p.2 else acc) none

/-! ## Facts about the assignment prefix -/

/-- Folding the last-assignment step over a list that never mentions key `k`
leaves the accumulator unchanged. -/
theorem lastAssign_foldl_of_notMem (l : List (String × String)) (k : String)
    (h : k ∉ l.map Prod.fst) :
    ∀ init, l.foldl (fun acc p => if p.1 = k then some p.2 else acc) init = init := by
  induction l with
  | nil => intro init; rfl
  | cons p t ih =>
    intro init
    simp only [List.map_cons, List.mem_cons, not_or] at h
    rw [List.foldl_cons, if_neg (fun hpk => h.1 hpk.symm)]
    exact ih h.2 init

/-- Folding the last-assignment step over a list with duplicate-free keys that
contains the binding `(k, v)` yields `some v`, whatever the accumulator. -/
theorem lastAssign_foldl_of_mem_nodup (l : List (String × String)) (k v : String)
    (hmem : (k, v) ∈ l) (hnd : (l.map Prod.fst).Nodup) :
    ∀ init, l.foldl (fun acc p => if p.1 = k then some p.2 else acc) init = some v := by
  induction l with
  | nil => cases hmem
  | cons p t ih =>
    intro init
    simp only [List.map_cons, List.nodup_cons] at hnd
    rcases List.mem_cons.1 hmem with heq | hmemt
    · subst heq
      rw [List.foldl_cons, if_pos rfl]
      exact lastAssign_foldl_of_notMem t k hnd.1 (some v)
    · rw [List.foldl_cons]
      exact ih hmemt hnd.2 _


/-- A nonempty key of an environment contributes its (trimmed, quoted)
assignment to the environment's assignment list. -/
theorem mem_envAssigns (e : Env) (k : String) (hk : k ≠ "") (hmem : k ∈ e.keys) :
    (trimSpace k, quoteVal (e.get k)) ∈ envAssigns e := by
  unfold envAssigns
  exact List.mem_filterMap.2 ⟨k, hmem, by simp [hk]⟩

/-- Claim C1 (counterexample): the claim states that for a key present in both
the device defaults and the descriptor's environment, the value in effect in
the composed remote command line is the command-level one. At the concrete
input where the descriptor binds `K=a` and the device defaults bind `K=b`,
the composed prefix is `K=a K=b ` and the effective value under POSIX
last-assignment-wins semantics is the device default `b`, not the
command-level `a`. -/
theorem c1_env_precedence_counterexample :
    ¬ (lastAssign (assignments ⟨[("K", "a")]⟩ ⟨[("K", "b")]⟩) "K"
        = some (quoteVal (Env.get ⟨[("K", "a")]⟩ "K"))) := by decide

/-- Claim C1 (amended): for a key present in the device defaults (nonempty,
whitespace-free, with duplicate-free device assignment keys), the effective
value of the composed command line under POSIX last-assignment-wins semantics
is the device default's quoted value — the device defaults override
command-level entries, because `Start` appends the device environment tokens
after the command-level ones (`commands.go:109-121`). -/
theorem c1_env_precedence_amended (cmdEnv devEnv : Env) (k : String)
    (hk : k ≠ "") (ht : trimSpace k = k) (hmem : k ∈ devEnv.keys)
    (hnd : ((envAssigns devEnv).map Prod.fst).Nodup) :
    lastAssign (assignments cmdEnv devEnv) k = some (quoteVal (devEnv.get k)) := by
  unfold assignments lastAssign
  rw [List.foldl_append]
  have hm : (k, quoteVal (devEnv.get k)) ∈ envAssigns devEnv := by
    have h := mem_envAssigns devEnv k hk hmem
    rwa [ht] at h
  exact lastAssign_foldl_of_mem_nodup _ _ _ hm hnd _

/-- Claim C1 (witness): the amended precedence theorem applied at the concrete
conflict `K=a` (descriptor) versus `K=b` (device defaults). -/
theorem c1_env_precedence_amended_witness :
    ("K" : String) ≠ "" ∧ trimSpace "K" = "K" ∧ "K" ∈ Env.keys ⟨[("K", "b")]⟩ ∧
      ((envAssigns ⟨[("K", "b")]⟩).map Prod.fst).Nodup ∧
      lastAssign (assignments ⟨[("K", "a")]⟩ ⟨[("K", "b")]⟩) "K"
        = some (quoteVal (Env.get ⟨[("K", "b")]⟩ "K")) :=
  ⟨by decide, by decide, by decide, by decide,
    c1_env_precedence_amended ⟨[("K", "a")]⟩ ⟨[("K", "b")]⟩ "K" (by decide) (by decide)
      (by decide) (by decide)⟩

/-! ## Claim C4: the wire format of the composed command line -/

/-- Modelled from the spec: the claimed wire contract
`[cd DIR; ][KEY=VAL ]...NAME ARG...` in which "both DIR and each VAL are
shell-quoted so they remain single tokens even when containing whitespace or
special characters" — in particular the working directory is quoted. -/
def claimedCommandString (cmdEnv devEnv : Env) (dir nm : String)
    (args : List String) : String :=
  (if dir ≠ "" then "cd " ++ quoteVal dir ++ "; " else "") ++
    strJoin (envTokens cmdEnv) ++ strJoin (envTokens devEnv) ++ nm ++ " " ++
    joinWith " " args

/-- Folding the token-append step over a key list equals appending the
concatenation of the per-key tokens. -/
theorem foldl_token_append (e : Env) (ks : List String) :
    ∀ p0 : String,
      ks.foldl (fun acc k => if k ≠ "" then acc ++ tokenOf e k else acc) p0
        = p0 ++ strJoin (ks.filterMap
            (fun k => if k = "" then none else some (tokenOf e k))) := by
  induction ks with
  | nil => intro p0; simp [strJoin, String.append_empty]
  | cons k t ih =>
    intro p0
    by_cases hk : k = ""
    · rw [List.foldl_cons, if_neg (fun h => h hk),
        List.filterMap_cons_none (by rw [if_pos hk])]
      exact ih p0
    · rw [List.foldl_cons, if_pos hk,
        List.filterMap_cons_some (by rw [if_neg hk])]
      simp only [strJoin]
      rw [ih (p0 ++ tokenOf e k), String.append_assoc]

/-- `envFold` appends exactly the concatenated `KEY=VALUE ` tokens. -/
theorem envFold_eq_tokens (e : Env) (p0 : String) :
    envFold e p0 = p0 ++ strJoin (envTokens e) :=
  foldl_token_append e e.keys p0

/-- Claim C4 (counterexample): the claim states that the working directory is
shell-quoted in the composed command line. At the concrete input with working
directory `a b` the code composes `cd a b; ls ` — the directory is inserted
verbatim (`commands.go:106`), while the claimed contract would compose
`cd "a b"; ls `, so the `cd` argument does not remain a single token. -/
theorem c4_wire_format_counterexample :
    ¬ (startCommandString ⟨[]⟩ ⟨[]⟩ "a b" "ls" []
        = claimedCommandString ⟨[]⟩ ⟨[]⟩ "a b" "ls" []) := by decide

/-- Claim C4 (amended): the literal command string has the form
`[cd DIR; ][KEY=VAL ]...NAME ARG...` — an optional `cd <dir>; ` prefix, one
`KEY=VALUE ` token per effective environment entry (command-level tokens
first, then device defaults, each with trimmed key and shell-quoted value),
then the program name and space-joined arguments — but DIR is inserted
verbatim, not shell-quoted, so a directory containing whitespace does not
remain a single token. -/
theorem c4_wire_format_amended (cmdEnv devEnv : Env) (dir nm : String)
    (args : List String) :
    startCommandString cmdEnv devEnv dir nm args
      = (if dir ≠ "" then "cd " ++ dir ++ "; " else "") ++
          strJoin (envTokens cmdEnv) ++ strJoin (envTokens devEnv) ++ nm ++ " " ++
          joinWith " " args := by
  simp only [startCommandString]
  rw [envFold_eq_tokens cmdEnv, envFold_eq_tokens devEnv]

/-! ## Claim C6: temp-directory creation (`MakeTempDir`, lines 141-168) -/

/-- Modelled from the spec: the remote OS classes (`device.OSType`, repository
code not under `src/`): POSIX classes (Linux, OSX), Windows, and other
classes such as Android, Stadia and the unknown OS. -/
inductive OSKind where
  | UnknownOS
  | Windows
  | OSX
  | Linux
  | Stadia
  | Android
deriving DecidableEq

/-- Outcome of a temp-directory request: a remote command is launched, a fixed
error is returned without remote side effect, or the call panics. -/
inductive TempDirRes where
  | launched (nm : String) (args : List String)
  | unsupported (msg : String)
  | panicked (msg : String)
deriving DecidableEq

/-- `binding.createPosixTempDirectory` (`commands.go:145-151`): launches
`mktemp -d` remotely. -/
def createPosixTempDirectory : TempDirRes :=
  TempDirRes.launched "mktemp" ["-d"]

/-- `binding.createWindowsTempDirectory` (`commands.go:153-155`): returns the
fixed unsupported error, launching nothing. -/
def createWindowsTempDirectory : TempDirRes :=
  TempDirRes.unsupported "Windows remote targets are not yet supported."

/-- `binding.MakeTempDir` (`commands.go:159-168`): switch on the remote OS —
Linux and OSX go to the POSIX helper, Windows to the fixed unsupported error,
and every other OS class panics. -/
def makeTempDir (os : OSKind) : TempDirRes :=
  match os with
  | OSKind.Linux => createPosixTempDirectory
  | OSKind.OSX => createPosixTempDirectory
  | OSKind.Windows => createWindowsTempDirectory
  | _ => TempDirRes.panicked "Unsupported OS"

/-- Claim C6 (counterexample): the claim states that on every remote OS class
with unimplemented temp-directory creation, `MakeTempDir` returns the fixed
unsupported error and never terminates abruptly. On the concrete unsupported
class Android the code panics (`commands.go:166`) instead of returning the
fixed unsupported error. -/
theorem c6_maketempdir_counterexample :
    ¬ (makeTempDir OSKind.Android
        = TempDirRes.unsupported "Windows remote targets are not yet supported.") := by
  decide

/-- Claim C6 (amended): for a Windows-flavored remote, `MakeTempDir` returns
the fixed unsupported error, launching no remote command and not panicking;
but for every other OS class on which temp-directory creation is
unimplemented, it terminates abruptly with a panic instead of returning an
error. -/
theorem c6_maketempdir_amended :
    makeTempDir OSKind.Windows
        = TempDirRes.unsupported "Windows remote targets are not yet supported." ∧
      ∀ os : OSKind, os ≠ OSKind.Linux → os ≠ OSKind.OSX → os ≠ OSKind.Windows →
        makeTempDir os = TempDirRes.panicked "Unsupported OS" := by
  refine ⟨rfl, ?_⟩
  intro os h1 h2 h3
  cases os <;> first | rfl | exact absurd rfl h1 | exact absurd rfl h2 | exact absurd rfl h3

/-- Claim C6 (witness): the amended theorem applied at the concrete
unsupported class Android. -/
theorem c6_maketempdir_amended_witness :
    makeTempDir OSKind.Android = TempDirRes.panicked "Unsupported OS" :=
  c6_maketempdir_amended.2 OSKind.Android (by decide) (by decide) (by decide)

/-! ## Command descriptors -/

/-- The command descriptor (`shell.Cmd`, repository code not under `src/`;
modelled from the spec: "program name, ordered argument sequence, optional
working directory, optional input stream, optional output/error streams, an
environment mapping"). Streams are modelled by their presence. -/
structure Cmd where
  name : String
  args : List String
  dir : String
  env : Env
  hasStdin : Bool
  hasStdout : Bool
  hasStderr : Bool

/-! ## Claim C7: `WriteFile` (`commands.go:172-176`) -/

/-- One octal digit. -/
def octDigitChar : Nat → Char
  | 0 => '0'
  | 1 => '1'
  | 2 => '2'
  | 3 => '3'
  | 4 => '4'
  | 5 => '5'
  | 6 => '6'
  | _ => '7'

/-- Octal digits of `n`, most significant first, accumulated onto `acc`;
`fuel` bounds the recursion depth. -/
def natToOctAux : Nat → Nat → List Char → List Char
  | 0, _, acc => acc
  | fuel + 1, n, acc =>
    if n < 8 then octDigitChar n :: acc
    else natToOctAux fuel (n / 8) (octDigitChar (n % 8) :: acc)

/-- The octal representation of a natural number, without padding. -/
def natToOct (n : Nat) : String := ⟨natToOctAux (n + 1) n []⟩

/-- Left-pad with spaces to the given width. -/
def padSpacesTo (w : Nat) (s : String) : String :=
  ⟨List.replicate (w - s.data.length) ' ' ++ s.data⟩

/-- Modelled from the Go standard library: `fmt.Sprintf("%4o", m)` as used at
`commands.go:173` — the octal digits of `m`, left-padded with spaces to a
minimum width of 4 (the `0` flag is absent, so padding is never with
zeros). -/
def fmtOct4 (n : Nat) : String := padSpacesTo 4 (natToOct n)

/-- Modelled from the Go standard library: `os.FileMode.Perm()` — the
permission bits of the mode, `mode & 0777`. -/
def modePerm (m : Nat) : Nat := m &&& 0o777

/-- The argument list handed to `b.Shell` by `WriteFile`
(`commands.go:174`). -/
def writeFileArgs (dest permStr : String) : List String :=
  [">", dest, "; chmod ", permStr, " ", dest]

/-- The descriptor built by `WriteFile` (`commands.go:174`):
`b.Shell("cat", ...)` with `.Read(contents)` supplying the content stream as
the command's input (`shell.Cmd.Read`, not under `src/`, modelled from the
spec: "streams the given content as the command's input"). -/
def writeFileCmd (dest : String) (mode : Nat) : Cmd :=
  ⟨"cat", writeFileArgs dest (fmtOct4 (modePerm mode)), "", ⟨[]⟩, true, false, false⟩

/-- The literal remote command string issued by `WriteFile`, as composed by
`sshShellTarget.Start` (device default environment taken empty). -/
def writeFileCommandString (dest : String) (mode : Nat) : String :=
  startCommandString ⟨[]⟩ ⟨[]⟩ "" "cat" (writeFileArgs dest (fmtOct4 (modePerm mode)))

/-- Modelled from the spec: the claimed command
`cat > <dest>; chmod <octal-mode> <dest>` with the mode "formatted as a
4-digit octal string" (zero-padded to 4 digits). -/
def padZerosTo (w : Nat) (s : String) : String :=
  ⟨List.replicate (w - s.data.length) '0' ++ s.data⟩

/-- Modelled from the spec: the claimed literal remote command of
`WriteFile`. -/
def claimedWriteFileString (dest : String) (mode : Nat) : String :=
  "cat > " ++ dest ++ "; chmod " ++ padZerosTo 4 (natToOct (modePerm mode)) ++ " " ++ dest

/-- Claim C7 (counterexample): at destination `f` and mode `0o755` the command
actually issued is `cat > f ; chmod   755   f` — `%4o` space-pads the
permission bits (which never exceed three octal digits) instead of producing
a 4-digit octal string, and the argument joining inserts extra spaces — so it
differs from the claimed `cat > f; chmod 0755 f`. -/
theorem c7_writefile_counterexample :
    ¬ (writeFileCommandString "f" 0o755 = claimedWriteFileString "f" 0o755) := by
  decide

/-- Claim C7 (amended): `WriteFile` supplies the content as the command's
input and issues the literal command
`cat > <dest> ; chmod  <perm>   <dest>` where `<perm>` is the permission
bits `mode & 0777` in octal, space-padded on the left to width 4 (never a
4-digit zero-padded string, since the permission bits have at most three
octal digits); the `cat > <dest>` write textually precedes the `chmod` in
the `;`-sequenced command, so the destination is first fully written and
only then has its permission bits set. -/
theorem c7_writefile_amended (dest : String) (mode : Nat) :
    (writeFileCmd dest mode).hasStdin = true ∧
      writeFileCommandString dest mode
        = "cat > " ++ dest ++ " ; chmod  " ++ fmtOct4 (modePerm mode) ++ "   " ++ dest := by
  refine ⟨rfl, ?_⟩
  simp only [writeFileCommandString, startCommandString, writeFileArgs, envFold, Env.keys,
    List.map_nil, List.foldl_nil, joinWith]
  rw [if_neg (by decide : ¬(("" : String) ≠ "")),
    show ("cat > " : String) = "cat" ++ (" " ++ (">" ++ " ")) from rfl,
    show (" ; chmod  " : String) = " " ++ ("; chmod " ++ " ") from rfl,
    show ("   " : String) = " " ++ (" " ++ " ") from rfl]
  simp only [String.empty_append, String.append_assoc]

/-! ## Claim C8: `PushFile` (`commands.go:180-199`) -/

/-- Whether a mode carries any executable permission bit (`--x--x--x`,
mask `0111`). -/
def hasExecBit (m : Nat) : Bool := decide (m &&& 0o111 ≠ 0)

/-- The mode `PushFile` hands to `WriteFile` (`commands.go:189-198`): the
local file's mode, with `0550` OR-ed in exactly when the remote target is
Linux or OSX and the local host (`runtime.GOOS`) is Windows — a Windows
local filesystem does not carry executable permission bits, so the
executable bit is "got back" before writing. -/
def pushFileMode (goos : String) (remoteOS : OSKind) (localMode : Nat) : Nat :=
  if (remoteOS = OSKind.Linux ∨ remoteOS = OSKind.OSX) ∧ goos = "windows" then
    localMode ||| 0o550
  else localMode

/-- A number with bit 3 set is nonzero. -/
theorem ne_zero_of_testBit_three {n : Nat} (h : n.testBit 3 = true) : n ≠ 0 := by
  intro h0
  rw [h0, Nat.zero_testBit] at h
  exact Bool.false_ne_true h

/-- Claim C8 (confirmed): pushing a file to a POSIX-like remote (Linux or
OSX) from a local filesystem without executable-bit support — a Windows
local host, the one non-POSIX local filesystem the code distinguishes, where
stat yields modes without executable bits — forces an executable bit onto
the mode before writing: the mode handed to `WriteFile` has an executable
bit, and so do the permission bits `chmod` receives. -/
theorem c8_pushfile_exec_bit (remoteOS : OSKind) (goos : String) (localMode : Nat)
    (hos : remoteOS = OSKind.Linux ∨ remoteOS = OSKind.OSX)
    (hgoos : goos = "windows") (_hnoexec : hasExecBit localMode = false) :
    hasExecBit (pushFileMode goos remoteOS localMode) = true ∧
      hasExecBit (modePerm (pushFileMode goos remoteOS localMode)) = true := by
  have hpush : pushFileMode goos remoteOS localMode = localMode ||| 0o550 := by
    unfold pushFileMode
    rw [if_pos ⟨hos, hgoos⟩]
  constructor
  · rw [hpush]
    unfold hasExecBit
    rw [decide_eq_true_iff]
    apply ne_zero_of_testBit_three
    rw [Nat.testBit_land, Nat.testBit_lor,
      show Nat.testBit 0o550 3 = true from by decide,
      show Nat.testBit 0o111 3 = true from by decide]
    simp
  · rw [hpush]
    unfold hasExecBit modePerm
    rw [decide_eq_true_iff]
    apply ne_zero_of_testBit_three
    rw [Nat.testBit_land, Nat.testBit_land, Nat.testBit_lor,
      show Nat.testBit 0o550 3 = true from by decide,
      show Nat.testBit 0o111 3 = true from by decide,
      show Nat.testBit 0o777 3 = true from by decide]
    simp

/-- Claim C8 (witness): the exec-bit theorem applied at remote Linux, local
Windows host, and the non-executable local mode `0644`. -/
theorem c8_pushfile_exec_bit_witness :
    (OSKind.Linux = OSKind.Linux ∨ OSKind.Linux = OSKind.OSX) ∧
      ("windows" : String) = "windows" ∧ hasExecBit 0o644 = false ∧
      hasExecBit (pushFileMode "windows" OSKind.Linux 0o644) = true ∧
      hasExecBit (modePerm (pushFileMode "windows" OSKind.Linux 0o644)) = true :=
  ⟨Or.inl rfl, rfl, by decide,
    (c8_pushfile_exec_bit OSKind.Linux "windows" 0o644 (Or.inl rfl) rfl (by decide)).1,
    (c8_pushfile_exec_bit OSKind.Linux "windows" 0o644 (Or.inl rfl) rfl (by decide)).2⟩

/-! ## Claim C9: `IsFile` and `IsDirectory` (`commands.go:354-373`) -/

/-- The remote side as the probes see it: whether `cd <path>` and
`stat <path>` succeed (exit status zero) for a given path. -/
structure RemoteProbes where
  cdOk : String → Bool
  statOk : String → Bool

/-- `binding.IsDirectory` (`commands.go:367-373`): runs `cd <path>`; any
error collapses to `(false, nil)`, success yields `(true, nil)` — the error
component of the result is always `nil`. -/
def isDirectory (r : RemoteProbes) (p : String) : Bool × Option String :=
  if r.cdOk p then (true, none) else (false, none)

/-- `binding.IsFile` (`commands.go:354-364`): if `IsDirectory` returned no
error and `true`, the result is `(false, nil)`; otherwise `stat <path>` is
run, any error collapsing to `(false, nil)` and success yielding
`(true, nil)`. -/
def isFile (r : RemoteProbes) (p : String) : Bool × Option String :=
  let d := isDirectory r p
  if d.2 = none ∧ d.1 = true then (false, none)
  else if r.statOk p then (true, none)
  else (false, none)

/-- Claim C9 (confirmed): for every remote state and path, `IsFile` and
`IsDirectory` are never both true; `IsFile` is true exactly when the
directory probe failed and the subsequent `stat` succeeded; and both probes
always report a `nil` error — every remote-side failure collapses to the
boolean `false` rather than a propagated error. -/
theorem c9_isfile_isdirectory_exclusive (r : RemoteProbes) (p : String) :
    (((isFile r p).1 && (isDirectory r p).1) = false) ∧
      (isFile r p).1 = (!(r.cdOk p) && r.statOk p) ∧
      (isDirectory r p).1 = r.cdOk p ∧
      (isFile r p).2 = none ∧ (isDirectory r p).2 = none := by
  unfold isFile isDirectory
  cases hcd : r.cdOk p <;> cases hst : r.statOk p <;> simp [hcd, hst]

/-! ## Claim C3: the tunnel accept loop (`commands.go:202-280`) -/

/-- One outcome of `listener.Accept()` in the accept loop: a local connection
was accepted (with the subsequent remote dial succeeding or failing), or the
accept itself failed (e.g. the listener was closed). -/
inductive AcceptEvent where
  | conn (dialOk : Bool)
  | acceptFail
deriving DecidableEq

/-- Outcome of `binding.doTunnel` (`commands.go:202-252`) for one accepted
connection: whether the accepted local connection was closed by the dial
failure path (`commands.go:205`), how many relay pumps were spawned, and
whether an error was returned. -/
structure TunnelRes where
  localClosed : Bool
  pumps : Nat
  err : Bool
deriving DecidableEq

/-- `binding.doTunnel`: a failed dial closes the accepted local connection
and returns the error (`commands.go:203-207`); a successful dial spawns the
two relay pumps and returns no error (`commands.go:242-251`). -/
def doTunnel (dialOk : Bool) : TunnelRes :=
  if dialOk then ⟨false, 2, false⟩ else ⟨true, 0, true⟩

/-- Result of running the accept loop against a finite script of accept
outcomes: how many forwarding sessions were started, how many accepted
locals were closed on a failed dial, whether the loop returned (closing the
listener via the `defer` at `commands.go:267`), and how many accept outcomes
were consumed. -/
structure LoopRes where
  tunneled : Nat
  failClosed : Nat
  exited : Bool
  consumed : Nat
deriving DecidableEq

/-- The accept loop of `binding.SetupLocalPort` (`commands.go:266-277`):
accept; on accept error return; otherwise run `doTunnel` and, if it returned
an error, return — otherwise continue with the next accept. -/
def acceptLoop : List AcceptEvent → LoopRes
  | [] => ⟨0, 0, false, 0⟩
  | AcceptEvent.acceptFail :: _ => ⟨0, 0, true, 1⟩
  | AcceptEvent.conn d :: rest =>
    let t := doTunnel d
    if t.err then ⟨0, if t.localClosed then 1 else 0, true, 1⟩
    else
      let r := acceptLoop rest
      ⟨r.tunneled + 1, r.failClosed, r.exited, r.consumed + 1⟩

/-- Modelled from the spec: the claimed accept-loop behavior — "if the dial
fails, the accepted local connection is closed and the loop continues
processing further accepts (a single failed tunnel attempt does not shut
down the listener)"; the loop stops only when the accept itself fails. -/
def claimedAcceptLoop : List AcceptEvent → LoopRes
  | [] => ⟨0, 0, false, 0⟩
  | AcceptEvent.acceptFail :: _ => ⟨0, 0, true, 1⟩
  | AcceptEvent.conn d :: rest =>
    let t := doTunnel d
    let r := claimedAcceptLoop rest
    if t.err then ⟨r.tunneled, r.failClosed + 1, r.exited, r.consumed + 1⟩
    else ⟨r.tunneled + 1, r.failClosed, r.exited, r.consumed + 1⟩

/-- Claim C3 (counterexample): on the concrete script "accepted connection
whose dial fails, then an accepted connection whose dial succeeds", the code
consumes only the first event and exits the loop (closing the listener),
while the claimed behavior would also process the second connection — a
single failed dial does terminate the listener (`commands.go:273-275`). -/
theorem c3_accept_loop_counterexample :
    ¬ (acceptLoop [AcceptEvent.conn false, AcceptEvent.conn true]
        = claimedAcceptLoop [AcceptEvent.conn false, AcceptEvent.conn true]) := by
  decide

/-- Claim C3 (amended): when dialing the remote port fails, the accepted
local connection is closed (`commands.go:205`) and `doTunnel` returns the
error, upon which the accept loop returns: the listener is closed by the
deferred call and no further connections are accepted — a single failed dial
terminates the listener. -/
theorem c3_accept_loop_amended (rest : List AcceptEvent) :
    (doTunnel false).localClosed = true ∧ (doTunnel false).err = true ∧
      acceptLoop (AcceptEvent.conn false :: rest) = ⟨0, 1, true, 1⟩ :=
  ⟨rfl, rfl, rfl⟩

/-! ## Claims C2, C5, C10: `sshShellTarget.Start` and `remoteProcess.Wait`
(`commands.go:44-129`) -/

/-- Which of the external session operations used by `Start` succeed:
`NewSession` (`commands.go:60`), `StdinPipe` (`commands.go:70`),
`StdoutPipe` (`commands.go:81`), `StderrPipe` (`commands.go:93`) and the
start request `session.Start` (`commands.go:124`). -/
structure SessionAPI where
  newSessionOk : Bool
  stdinPipeOk : Bool
  stdoutPipeOk : Bool
  stderrPipeOk : Bool
  startOk : Bool

/-- The relay/synchronization state of a `remoteProcess`: which relay pump
tasks are still running, the `sync.WaitGroup` counter `wg`, whether
`session.Wait` has observed remote exit, and whether `Wait` has returned. -/
structure ProcState where
  stdinRunning : Bool
  stdoutRunning : Bool
  stderrRunning : Bool
  wg : Nat
  sessionExited : Bool
  waitReturned : Bool

/-- The process state before any pump is spawned: nothing running, counter
zero (`commands.go:64-67`). -/
def procInit : ProcState := ⟨false, false, false, 0, false, false⟩

/-- Everything `Start` leaves behind: whether it returned a process rather
than an error, whether the execution channel was opened, whether it was
closed again, whether the remote command was started, and the relay state. -/
structure StartRes where
  ok : Bool
  sessionOpened : Bool
  sessionClosed : Bool
  commandStarted : Bool
  proc : ProcState

/-- `sshShellTarget.Start` (`commands.go:59-129`) with the success of each
external session operation given by `api`: open a session (error: return
immediately); if the descriptor has stdin, obtain the stdin pipe (error:
return) and spawn the stdin copy task — with no `wg.Add`; if it has stdout,
obtain the stdout pipe (error: return), `wg.Add(1)` and spawn the stdout
relay; likewise for stderr; finally issue the start request (error: return).
No error path closes the session or stops already-spawned tasks. -/
def startExec (api : SessionAPI) (cmd : Cmd) : StartRes :=
  if !api.newSessionOk then
    ⟨false, false, false, false, procInit⟩
  else if cmd.hasStdin && !api.stdinPipeOk then
    ⟨false, true, false, false, procInit⟩
  else
    let p1 := if cmd.hasStdin then { procInit with stdinRunning := true } else procInit
    if cmd.hasStdout && !api.stdoutPipeOk then
      ⟨false, true, false, false, p1⟩
    else
      let p2 := if cmd.hasStdout then
          { p1 with stdoutRunning := true, wg := p1.wg + 1 } else p1
      if cmd.hasStderr && !api.stderrPipeOk then
        ⟨false, true, false, false, p2⟩
      else
        let p3 := if cmd.hasStderr then
            { p2 with stderrRunning := true, wg := p2.wg + 1 } else p2
        if !api.startOk then ⟨false, true, false, false, p3⟩
        else ⟨true, true, false, true, p3⟩

/-- The session API in which every operation succeeds. -/
def allOk : SessionAPI := ⟨true, true, true, true, true⟩

/-- The relay state of a successfully started process. -/
def procStart (cmd : Cmd) : ProcState := (startExec allOk cmd).proc

/-- One concurrent step of a started process's lifecycle, modelling the Go
scheduler over the tasks of `commands.go:44-102`: a relay pump finishes
(stdout/stderr pumps call `wg.Done()`, `commands.go:88/100`; the stdin pump
touches no counter, `commands.go:74-77`), the remote command exits
(`session.Wait` returns, `commands.go:49`), and `Wait` returns only after
remote exit and `wg.Wait()` — the counter at zero (`commands.go:49-51`). -/
inductive Step : ProcState → ProcState → Prop where
  | stdinDone (o e : Bool) (n : Nat) (ex w : Bool) :
      Step ⟨true, o, e, n, ex, w⟩ ⟨false, o, e, n, ex, w⟩
  | stdoutDone (i e : Bool) (n : Nat) (ex w : Bool) :
      Step ⟨i, true, e, n, ex, w⟩ ⟨i, false, e, n - 1, ex, w⟩
  | stderrDone (i o : Bool) (n : Nat) (ex w : Bool) :
      Step ⟨i, o, true, n, ex, w⟩ ⟨i, o, false, n - 1, ex, w⟩
  | sessionExit (i o e : Bool) (n : Nat) (w : Bool) :
      Step ⟨i, o, e, n, false, w⟩ ⟨i, o, e, n, true, w⟩
  | waitReturn (i o e : Bool) :
      Step ⟨i, o, e, 0, true, false⟩ ⟨i, o, e, 0, true, true⟩

/-- The states a process started from descriptor `cmd` can reach. -/
def Reachable (cmd : Cmd) (s : ProcState) : Prop :=
  Relation.ReflTransGen Step (procStart cmd) s

/-- The number of relay pumps registered in the wait group. -/
def wgCount (s : ProcState) : Nat :=
  (if s.stdoutRunning then 1 else 0) + (if s.stderrRunning then 1 else 0)

/-- The lifecycle invariant: the wait-group counter counts exactly the
running stdout/stderr pumps, and once `Wait` has returned no stdout/stderr
pump is running. -/
def ProcInv (s : ProcState) : Prop :=
  s.wg = wgCount s ∧ (s.waitReturned = true → s.stdoutRunning = false ∧ s.stderrRunning = false)

/-- The invariant holds at process start. -/
theorem procInv_init (cmd : Cmd) : ProcInv (procStart cmd) := by
  rcases cmd with ⟨n, a, d, e, si, so, se⟩
  cases si <;> cases so <;> cases se <;>
    simp [procStart, startExec, allOk, procInit, ProcInv, wgCount]

/-- The invariant is preserved by every lifecycle step. -/
theorem procInv_step {s t : ProcState} (h : ProcInv s) (hst : Step s t) : ProcInv t := by
  obtain ⟨h1, h2⟩ := h
  cases hst with
  | stdinDone o e n ex w => exact ⟨h1, h2⟩
  | stdoutDone i e n ex w =>
    constructor
    · simp only [wgCount] at h1 ⊢
      cases e <;> simp at h1 ⊢ <;> omega
    · intro hw
      exact ⟨rfl, (h2 hw).2⟩
  | stderrDone i o n ex w =>
    constructor
    · simp only [wgCount] at h1 ⊢
      cases o <;> simp at h1 ⊢ <;> omega
    · intro hw
      exact ⟨(h2 hw).1, rfl⟩
  | sessionExit i o e n w => exact ⟨h1, h2⟩
  | waitReturn i o e =>
    constructor
    · exact h1
    · intro hw
      simp only [wgCount] at h1
      cases o <;> cases e <;> simp_all

/-- The invariant holds in every reachable state. -/
theorem procInv_reachable (cmd : Cmd) (s : ProcState) (h : Reachable cmd s) :
    ProcInv s := by
  induction h with
  | refl => exact procInv_init cmd
  | tail _ hst ih => exact procInv_step ih hst

/-- Claim C2 (confirmed): in every reachable state of a started process in
which `Wait` has returned, no stdout or stderr relay pump is still running —
`Wait` returns only after `session.Wait` and `wg.Wait()`, and the counter
reaches zero only when every registered stdout/stderr relay has called
`wg.Done()` after its copy observed end-of-data, so no output queued before
remote exit is dropped at the caller-visible boundary. -/
theorem c2_wait_after_relay_completion (cmd : Cmd) (s : ProcState)
    (h : Reachable cmd s) (hw : s.waitReturned = true) :
    s.stdoutRunning = false ∧ s.stderrRunning = false :=
  (procInv_reachable cmd s h).2 hw

/-- A descriptor redirecting stdout only. -/
def cmdStdoutOnly : Cmd := ⟨"echo", ["hi"], "", ⟨[]⟩, false, true, false⟩

/-- The state after the stdout relay finished, the remote exited and `Wait`
returned, for `cmdStdoutOnly`. -/
def sWaitDone : ProcState := ⟨false, false, false, 0, true, true⟩

/-- Claim C2 (witness): the wait theorem applied to a concrete execution of
a stdout-redirecting descriptor — relay completion, remote exit, `Wait`
return. -/
theorem c2_wait_after_relay_completion_witness :
    sWaitDone.waitReturned = true ∧
      (sWaitDone.stdoutRunning = false ∧ sWaitDone.stderrRunning = false) :=
  ⟨rfl,
    c2_wait_after_relay_completion cmdStdoutOnly sWaitDone
      (Relation.ReflTransGen.tail
        (Relation.ReflTransGen.tail
          (Relation.ReflTransGen.tail Relation.ReflTransGen.refl
            (Step.stdoutDone false false 1 false false))
          (Step.sessionExit false false false 0 false))
        (Step.waitReturn false false false))
      rfl⟩

/-- A descriptor supplying stdin, stdout and stderr. -/
def cmdAllStreams : Cmd := ⟨"p", [], "", ⟨[]⟩, true, true, true⟩

/-- Claim C10 (confirmed): the stdin relay task is not registered in the
completion counter — for every descriptor the wait-group counter at start
counts one per supplied stdout/stderr stream and nothing for stdin
(`commands.go:69-102`); consequently a state is reachable in which `Wait`
has returned while the stdin pump is still running. -/
theorem c10_stdin_pump_uncounted :
    (∀ cmd : Cmd, (procStart cmd).wg
        = (if cmd.hasStdout then 1 else 0) + (if cmd.hasStderr then 1 else 0)) ∧
      ∃ s : ProcState, Reachable cmdAllStreams s ∧
        s.waitReturned = true ∧ s.stdinRunning = true := by
  constructor
  · intro cmd
    rcases cmd with ⟨n, a, d, e, si, so, se⟩
    cases si <;> cases so <;> cases se <;> rfl
  · refine ⟨⟨true, false, false, 0, true, true⟩, ?_, rfl, rfl⟩
    exact
      Relation.ReflTransGen.tail
        (Relation.ReflTransGen.tail
          (Relation.ReflTransGen.tail
            (Relation.ReflTransGen.tail Relation.ReflTransGen.refl
              (Step.stdoutDone true true 2 false false))
            (Step.stderrDone true false 1 false false))
          (Step.sessionExit true false false 0 false))
        (Step.waitReturn true false false)

/-- A descriptor supplying stdin and stdout (used for the `Start` error-path
analysis). -/
def cmdInOut : Cmd := ⟨"c", [], "", ⟨[]⟩, true, true, false⟩

/-- Claim C5 (counterexample): the claim states that when `Start` returns an
error nothing is partially started. At the concrete input where the stdout
pipe request fails on a descriptor with stdin and stdout, `Start` returns an
error after the stdin relay task was already spawned (still running) and
with the opened execution channel never closed (`commands.go:80-84` returns
without any cleanup). -/
theorem c5_start_error_counterexample :
    ¬ ((startExec ⟨true, true, false, true, true⟩ cmdInOut).ok = false →
        (startExec ⟨true, true, false, true, true⟩ cmdInOut).proc.stdinRunning = false ∧
          ((startExec ⟨true, true, false, true, true⟩ cmdInOut).sessionOpened = true →
            (startExec ⟨true, true, false, true, true⟩ cmdInOut).sessionClosed = true)) := by
  decide

/-- Claim C5 (amended): whenever `Start` returns an error, the remote command
has not begun executing (the start request was never issued or was rejected);
however the opened execution channel is never closed on the pipe-setup and
start-request failure paths, and an already-spawned stdin relay task is left
running. -/
theorem c5_start_error_amended (api : SessionAPI) (cmd : Cmd)
    (h : (startExec api cmd).ok = false) :
    (startExec api cmd).commandStarted = false ∧
      (startExec api cmd).sessionClosed = false := by
  rcases api with ⟨ns, ip, op, ep, st⟩
  rcases cmd with ⟨n, a, d, e, si, so, se⟩
  cases ns <;> cases ip <;> cases op <;> cases ep <;> cases st <;>
    cases si <;> cases so <;> cases se <;>
    simp_all [startExec, procInit]

/-- Claim C5 (witness): the amended theorem applied at the concrete failing
input of the counterexample. -/
theorem c5_start_error_amended_witness :
    (startExec ⟨true, true, false, true, true⟩ cmdInOut).ok = false ∧
      ((startExec ⟨true, true, false, true, true⟩ cmdInOut).commandStarted = false ∧
        (startExec ⟨true, true, false, true, true⟩ cmdInOut).sessionClosed = false) :=
  ⟨rfl, c5_start_error_amended ⟨true, true, false, true, true⟩ cmdInOut rfl⟩
